import Mathlib

/-!
Verification of the checkpoint HTTP-handler test harness.

The development shallowly embeds the Go sources:
per file, `checkpoint.go` (functional-options checker `NewChecker`),
`router.go` (the `RouterAdapter` over a dynamically typed router handle),
and the two builder-struct variants of `TestConfig.Run` (the pointer-field
variant, here namespace `V0`, and the sentinel-field variant).

Go maps are modelled as association lists with unique keys where assignment
replaces the existing binding; `net/http` transport primitives (request
constructor, response recorder) are external collaborators and are modelled
at their interface boundary; routing engines are modelled as an abstract
`RouterM` state machine, since the harness only registers one handler and
dispatches one request against it.
-/

namespace Checkpoint

/-- Go map assignment `m[k] = v`, on the association-list model of a
string-keyed map: replace the binding if the key is present, append otherwise. -/
def mapSet {α : Type} : List (String × α) → String → α → List (String × α)
  | [], k, v => [(k, v)]
  | (k0, v0) :: rest, k, v =>
      if k0 = k then (k, v) :: rest else (k0, v0) :: mapSet rest k v

/-- Go map read `m[k]`, on the association-list model. -/
def lookupS {α : Type} : List (String × α) → String → Option α
  | [], _ => none
  | (k0, v) :: rest, k => if k0 = k then some v else lookupS rest k

/-- whether a key is present in the association-list model of a Go map. -/
def hasKey {α : Type} : List (String × α) → String → Bool
  | [], _ => false
  | (k0, _) :: rest, k => if k0 = k then true else hasKey rest k

/-- the Go-map invariant for the association-list model: keys are pairwise
distinct. Every list built from `[]` by `mapSet` satisfies it. -/
def nodupKeys {α : Type} : List (String × α) → Bool
  | [] => true
  | (k, _) :: rest => (!hasKey rest k) && nodupKeys rest

/-- an in-memory request: method, URL, body, and a mutable header map
(`req.Header.Set` replaces, so a key-to-value function suffices). -/
structure Request where
  method : String
  url : String
  body : String
  headers : String → Option String

/-- models `req.Header.Set(k, v)`: direct assignment replacing any prior value. -/
def Request.setHeader (r : Request) (k v : String) : Request :=
  { r with headers := fun k2 => if k2 = k then some v else r.headers k2 }

/-- the in-memory response recorder (`httptest.NewRecorder`): status code
(default 200), whether the header was already written (first write wins),
the response header map (multi-valued), and the accumulated body. -/
structure Resp where
  Code : Nat
  wroteHeader : Bool
  headerMap : List (String × List String)
  body : String

/-- a fresh response recorder: code 200, nothing written. -/
def initResp : Resp :=
  { Code := 200, wroteHeader := false, headerMap := [], body := "" }

/-- models `w.Header().Set(k, v)` on the response recorder. -/
def Resp.setHeader (w : Resp) (k v : String) : Resp :=
  { w with headerMap := mapSet w.headerMap k [v] }

/-- models `w.WriteHeader(code)`: the first call wins, later calls are ignored. -/
def Resp.writeHeader (w : Resp) (code : Nat) : Resp :=
  if w.wroteHeader then w else { w with Code := code, wroteHeader := true }

/-- models `w.Write(bytes)`: append to the body; an implicit `WriteHeader(200)`
happens on the first write (the recorder code already defaults to 200). -/
def Resp.write (w : Resp) (s : String) : Resp :=
  { w with body := w.body ++ s, wroteHeader := true }

/-- a handler consumes a request and transforms the response sink. -/
abbrev Handler := Request → Resp → Resp

/-- a Go `http.Handler` interface value; `none` is the nil interface value. -/
abbrev GoHandler := Option Handler

/-- models `h.ServeHTTP(w, r)` on an interface value. Invoking a nil handler
panics in Go; the model leaves the sink unchanged, and no theorem below
depends on that branch. -/
def serveGo : GoHandler → Request → Resp → Resp
  | some h, r, w => h r w
  | none, _, w => w

/-- a middleware transformation `func(http.Handler) http.Handler`. -/
abbrev Middleware := GoHandler → GoHandler

/-- the middleware-composition loop shared by `NewChecker` and both `Run`
variants: `finalHandler := handler; for i := len(m)-1; i >= 0; i-- {
finalHandler = m[i](finalHandler) }`, which is a left fold over the
reversed list. -/
def composeMW (mws : List Middleware) (handler : GoHandler) : GoHandler :=
  (mws.reverse).foldl (fun acc m => m acc) handler

/-- models Go `strings.Join(elems, sep)`: empty list gives the empty string,
a singleton passes through, otherwise the elements are interleaved with the
separator in their existing order. -/
def goJoin (elems : List String) (sep : String) : String :=
  match elems with
  | [] => ""
  | e :: rest => rest.foldl (fun acc x => acc ++ sep ++ x) e

/-- one step of the response-header extraction loop:
`if len(values) > 0 { responseHeaders[key] = strings.Join(values, ", ") }`. -/
def extractStep (m : List (String × String)) (p : String × List String) :
    List (String × String) :=
  if p.2.length > 0 then mapSet m p.1 (goJoin p.2 ", ") else m

/-- the response-header extraction loop over `rr.Header()`. -/
def extractHeaders (hs : List (String × List String)) : List (String × String) :=
  hs.foldl extractStep []

/-- the request-header attachment loop:
`for key, value := range config.headers { req.Header.Set(key, value) }`. -/
def attachHeaders (req : Request) (m : List (String × String)) : Request :=
  m.foldl (fun r p => r.setHeader p.1 p.2) req

/-- a sequence of Go map assignments applied in order (used to state the
last-write-wins properties of the header map). -/
def writeAll (ws : List (String × String)) (m : List (String × String)) :
    List (String × String) :=
  ws.foldl (fun acc p => mapSet acc p.1 p.2) m

/-- the last value written for a key by a sequence of assignments, if any. -/
def lastWrite : List (String × String) → String → Option String
  | [], _ => none
  | (k0, v0) :: rest, k =>
      match lastWrite rest k with
      | some v => some v
      | none => if k0 = k then some v0 else none

/-- the immutable result of one execution (`Result` in both source variants;
the body is the raw byte sequence, Go `[]byte` and Go `string` being the
same byte-sequence data). -/
structure Result where
  Headers : List (String × String)
  StatusCode : Nat
  Body : String
deriving DecidableEq

/-- a Go `error` value, carrying its message. -/
abbrev GoError := String

/-- the consumed transport-primitive interface: `http.NewRequestWithContext`
(the context is threaded through construction only and has no further
observable effect, so it is omitted) and `io.ReadAll` on the recorder body. -/
structure Transport where
  newRequest : String → String → String → Except GoError Request
  readAll : String → Except GoError String

/-- a freshly constructed request with no headers. -/
def stdReq (method url body : String) : Request :=
  { method := method, url := url, body := body, headers := fun _ => none }

/-- the happy-path transport: request construction succeeds, and reading the
recorder body (a bytes.Buffer) never fails. -/
def stdTransport : Transport :=
  { newRequest := fun m u b => Except.ok (stdReq m u b)
    readAll := fun s => Except.ok s }

/-- the `Router` capability interface, as a state machine over an abstract
router state: `Handle(pattern, handler)` and `ServeHTTP(w, r)`. -/
structure RouterM (σ : Type) where
  handle : σ → String → GoHandler → σ
  serveHTTP : σ → Request → Resp → Resp

/-- observable router interactions performed by one execution. -/
inductive REvent where
  | handle (pattern : String)
  | serve
deriving DecidableEq

/-- the outcome of one execution: the two Go return values, the final router
state, and the router interactions that occurred. -/
structure RunOut (σ : Type) where
  result : Option Result
  err : Option GoError
  router : σ
  trace : List REvent

/-- the execution pipeline shared verbatim by `NewChecker` and both `Run`
variants, starting at request construction: build the request, attach the
configured headers, fold the middlewares onto the handler, register at the
pattern, dispatch into a fresh recorder, extract headers, read the body,
and return the result. -/
def runCore {σ : Type} (rm : RouterM σ) (tp : Transport) (st : σ)
    (method urlPath body : String)
    (headers : List (String × String)) (mws : List Middleware)
    (handler : GoHandler) (urlPattern : String) : RunOut σ :=
  match tp.newRequest method urlPath body with
  | Except.error e => { result := none, err := some e, router := st, trace := [] }
  | Except.ok req1 =>
    let req := attachHeaders req1 headers
    let finalHandler := composeMW mws handler
    let st1 := rm.handle st urlPattern finalHandler
    let rr := rm.serveHTTP st1 req initResp
    let responseHeaders := extractHeaders rr.headerMap
    match tp.readAll rr.body with
    | Except.error e =>
        { result := none, err := some e, router := st1
          trace := [REvent.handle urlPattern, REvent.serve] }
    | Except.ok bodyBytes =>
        { result := some { Headers := responseHeaders, StatusCode := rr.Code, Body := bodyBytes }
          err := none, router := st1
          trace := [REvent.handle urlPattern, REvent.serve] }

/-- the functional-options configuration record (`testConfig` in checkpoint.go). -/
structure testConfig where
  headers : List (String × String)
  middlewares : List Middleware
  urlPath : String
  urlPattern : String
  method : String
  body : String

/-- a functional option mutating the configuration. -/
abbrev TestOption := testConfig → testConfig

/-- a deferred header pair `func() (string, string)`. -/
abbrev HeaderFunc := Unit → String × String

/-- `Header(key, value)` builds a `HeaderFunc` returning the pair. -/
def Header (key value : String) : HeaderFunc := fun _ => (key, value)

/-- `WithHeaders`: evaluate each `HeaderFunc` and assign into the header map. -/
def WithHeaders (hs : List HeaderFunc) : TestOption :=
  fun config =>
    { config with
        headers := hs.foldl (fun m h => mapSet m (h ()).1 (h ()).2) config.headers }

/-- `WithMiddlewares`: append to the middleware list, keeping declared order. -/
def WithMiddlewares (ms : List Middleware) : TestOption :=
  fun config => { config with middlewares := config.middlewares ++ ms }

/-- `WithURLPath`: set the URL path. -/
def WithURLPath (urlPath : String) : TestOption :=
  fun config => { config with urlPath := urlPath }

/-- `WithURLPattern`: set the registration pattern. -/
def WithURLPattern (urlPattern : String) : TestOption :=
  fun config => { config with urlPattern := urlPattern }

/-- `WithMethod`: set the HTTP method. -/
def WithMethod (method : String) : TestOption :=
  fun config => { config with method := method }

/-- `WithBody`: set the request body. -/
def WithBody (body : String) : TestOption :=
  fun config => { config with body := body }

/-- the initial configuration built inside `NewChecker`: empty maps and
lists, method pre-defaulted to GET, every other string field zero-valued. -/
def initialConfig : testConfig :=
  { headers := [], middlewares := [], urlPath := "", urlPattern := ""
    method := "GET", body := "" }

/-- the option-application loop `for _, option := range options { option(config) }`. -/
def applyOpts (options : List TestOption) (c : testConfig) : testConfig :=
  options.foldl (fun config option => option config) c

/-- the checker returned by `NewChecker[T Router](router T)` in checkpoint.go,
applied to a context (omitted), a handler and a list of options: build the
config from the options, reject an empty path, then run the shared pipeline.
Neither the handler nor the pattern receives any further treatment: the
pattern used for registration is `config.urlPattern` exactly as configured. -/
def NewChecker {σ : Type} (rm : RouterM σ) (tp : Transport) (st : σ)
    (handler : GoHandler) (options : List TestOption) : RunOut σ :=
  let config := applyOpts options initialConfig
  if config.urlPath = "" then
    { result := none, err := some "url path cannot be empty", router := st, trace := [] }
  else
    runCore rm tp st config.method config.urlPath config.body config.headers
      config.middlewares handler config.urlPattern

/-- the builder-struct configuration of the sentinel-field variant
(`TestConfig` in the unnamed source file with plain string optional fields). -/
structure TestConfig (σ : Type) where
  Router : σ
  RouteFunc : GoHandler
  Path : String
  Headers : List (String × String)
  Middlewares : List Middleware
  URLPattern : String
  Method : String
  Body : String

/-- default resolution `method := "GET"; if tc.Method != "" { method = tc.Method }`. -/
def TestConfig.effectiveMethod {σ : Type} (tc : TestConfig σ) : String :=
  if tc.Method ≠ "" then tc.Method else "GET"

/-- default resolution `body := ""; if tc.Body != "" { body = tc.Body }`. -/
def TestConfig.effectiveBody {σ : Type} (tc : TestConfig σ) : String :=
  if tc.Body ≠ "" then tc.Body else ""

/-- default resolution `urlPattern := tc.Path; if tc.URLPattern != "" {
urlPattern = tc.URLPattern }`. -/
def TestConfig.effectivePattern {σ : Type} (tc : TestConfig σ) : String :=
  if tc.URLPattern ≠ "" then tc.URLPattern else tc.Path

/-- `TestConfig.Run` of the sentinel-field variant: reject a nil handler,
reject an empty path, resolve defaults, then run the shared pipeline. -/
def TestConfig.Run {σ : Type} (rm : RouterM σ) (tp : Transport)
    (tc : TestConfig σ) : RunOut σ :=
  match tc.RouteFunc with
  | none =>
      { result := none, err := some "handler cannot be nil", router := tc.Router, trace := [] }
  | some rf =>
    if tc.Path = "" then
      { result := none, err := some "path cannot be empty", router := tc.Router, trace := [] }
    else
      runCore rm tp tc.Router tc.effectiveMethod tc.Path tc.effectiveBody tc.Headers
        tc.Middlewares (some rf) tc.effectivePattern

namespace V0

/-- the builder-struct configuration of the pointer-field variant
(`TestConfig` in the unnamed source file with nullable pointer fields). -/
structure TestConfig (σ : Type) where
  router : σ
  RouteFunc : GoHandler
  Path : String
  Headers : List (String × String)
  Middlewares : List Middleware
  URLPattern : Option String
  Method : Option String
  Body : Option String

/-- default resolution `method := "GET"; if tc.Method != nil { method = *tc.Method }`. -/
def TestConfig.effectiveMethod {σ : Type} (tc : TestConfig σ) : String :=
  match tc.Method with
  | some m => m
  | none => "GET"

/-- default resolution `body := ""; if tc.Body != nil { body = *tc.Body }`. -/
def TestConfig.effectiveBody {σ : Type} (tc : TestConfig σ) : String :=
  match tc.Body with
  | some b => b
  | none => ""

/-- default resolution `urlPattern := tc.Path; if tc.URLPattern != nil {
urlPattern = *tc.URLPattern }`. -/
def TestConfig.effectivePattern {σ : Type} (tc : TestConfig σ) : String :=
  match tc.URLPattern with
  | some p => p
  | none => tc.Path

/-- `TestConfig.Run` of the pointer-field variant: same validation and
pipeline as the sentinel-field variant, with pointer-based default resolution. -/
def TestConfig.Run {σ : Type} (rm : RouterM σ) (tp : Transport)
    (tc : TestConfig σ) : RunOut σ :=
  match tc.RouteFunc with
  | none =>
      { result := none, err := some "handler cannot be nil", router := tc.router, trace := [] }
  | some rf =>
    if tc.Path = "" then
      { result := none, err := some "path cannot be empty", router := tc.router, trace := [] }
    else
      runCore rm tp tc.router tc.effectiveMethod tc.Path tc.effectiveBody tc.Headers
        tc.Middlewares (some rf) tc.effectivePattern

end V0

/-- the `Body` newtype (`type Body []byte`); Go `[]byte` and Go `string`
are both byte sequences, modelled by the same carrier. -/
structure Body where
  bytes : String

/-- the text-conversion accessor `func (b Body) String() string`. -/
def Body.string (b : Body) : String :=
  if b.bytes.length = 0 then "" else b.bytes

/-- a minimal model of the external gorilla/mux engine at its interface
boundary: an ordered registration table, dispatch by exact URL match,
a 404 page otherwise (the engine internals are out of scope). -/
structure GorillaMux where
  routes : List (String × GoHandler)

/-- gorilla route registration. -/
def GorillaMux.handle (m : GorillaMux) (pattern : String) (h : GoHandler) : GorillaMux :=
  { routes := m.routes ++ [(pattern, h)] }

/-- models `http.Error(w, msg, code)`: set the plain-text content headers,
write the status code, then write the message and a newline. -/
def httpError (w : Resp) (msg : String) (code : Nat) : Resp :=
  (((w.setHeader "Content-Type" "text/plain; charset=utf-8").setHeader
      "X-Content-Type-Options" "nosniff").writeHeader code).write (msg ++ "\n")

/-- gorilla dispatch in the model: serve the matching route, else 404. -/
def GorillaMux.serveHTTP (m : GorillaMux) (w : Resp) (r : Request) : Resp :=
  match lookupS m.routes r.url with
  | some h => serveGo h r w
  | none => httpError w "404 page not found" 404

/-- the dynamically typed router handle held by the adapter
(`Mux interface{}` in router.go): either the one supported concrete engine
type, or any other value, represented by its type description. -/
inductive MuxRef where
  | gorilla (m : GorillaMux)
  | unsupported (other : String)

/-- `RouterAdapter` from router.go: a wrapper holding the dynamically typed
router reference. -/
structure RouterAdapter where
  Mux : MuxRef

/-- `RouterAdapter.Handle`: type-switch on the held reference; the gorilla
case delegates, and a switch with no default makes every other type a
silent no-op. -/
def RouterAdapter.Handle (g : RouterAdapter) (pattern : String)
    (handler : GoHandler) : RouterAdapter :=
  match g.Mux with
  | MuxRef.gorilla m => { Mux := MuxRef.gorilla (m.handle pattern handler) }
  | MuxRef.unsupported _ => g

/-- `RouterAdapter.ServeHTTP`: type-switch on the held reference; the gorilla
case delegates, and the default case writes an "Unsupported router type"
500 response via `http.Error`. -/
def RouterAdapter.ServeHTTP (g : RouterAdapter) (w : Resp) (r : Request) : Resp :=
  match g.Mux with
  | MuxRef.gorilla m => m.serveHTTP w r
  | MuxRef.unsupported _ => httpError w "Unsupported router type" 500

/-- the state of the minimal conformant router used to instantiate concrete
executions: the most recent registration. -/
abbrev SimpleState := Option (String × GoHandler)

/-- a minimal conformant router: remember the registered handler, dispatch
to it. -/
def simpleRM : RouterM SimpleState :=
  { handle := fun _ pattern h => some (pattern, h)
    serveHTTP := fun st r w =>
      match st with
      | some (_, h) => serveGo h r w
      | none => w }

/-- a concrete GET request at /test with empty body and no headers. -/
def req0 : Request := stdReq "GET" "/test" ""

/-- a terminal handler echoing the request headers A and B into the
response header X-Combined (the shape of the stacked-middleware test). -/
def echoHandler : Handler := fun r w =>
  w.setHeader "X-Combined" (((r.headers "A").getD "") ++ ":" ++ ((r.headers "B").getD ""))

/-- a middleware that sets request header A and delegates. -/
def mwSetA : Middleware :=
  fun next => some (fun r w => serveGo next (r.setHeader "A" "1") w)

/-- a middleware that sets request header B only if A is already present,
then delegates. -/
def mwNeedsA : Middleware :=
  fun next => some (fun r w =>
    if (r.headers "A").isSome then serveGo next (r.setHeader "B" "1") w
    else serveGo next r w)

/-- reading back the key just assigned yields the assigned value. -/
lemma lookupS_mapSet_self {α : Type} (m : List (String × α)) (k : String) (v : α) :
    lookupS (mapSet m k v) k = some v := by
  induction m with
  | nil => simp [mapSet, lookupS]
  | cons p rest ih =>
    obtain ⟨k0, v0⟩ := p
    by_cases h : k0 = k
    · simp [mapSet, h, lookupS]
    · simp [mapSet, h, lookupS, ih]

/-- assignment to one key leaves every other key unchanged. -/
lemma lookupS_mapSet_other {α : Type} (m : List (String × α)) (k : String) (v : α)
    (k2 : String) (h : k2 ≠ k) : lookupS (mapSet m k v) k2 = lookupS m k2 := by
  induction m with
  | nil =>
    have hk : ¬ k = k2 := fun hh => h hh.symm
    simp [mapSet, lookupS, hk]
  | cons p rest ih =>
    obtain ⟨k0, v0⟩ := p
    by_cases h0 : k0 = k
    · have hk : ¬ k = k2 := fun hh => h hh.symm
      simp [mapSet, h0, lookupS, hk]
    · by_cases h2 : k0 = k2
      · subst h2
        simp [mapSet, h, lookupS]
      · simp [mapSet, h0, lookupS, h2, ih]

/-- an absent key looks up to nothing. -/
lemma lookupS_of_hasKey_false {α : Type} (m : List (String × α)) (k : String)
    (h : hasKey m k = false) : lookupS m k = none := by
  induction m with
  | nil => simp [lookupS]
  | cons p rest ih =>
    obtain ⟨k0, v0⟩ := p
    by_cases h0 : k0 = k
    · simp [hasKey, h0] at h
    · simp [hasKey, h0] at h
      simp [lookupS, h0, ih h]

/-- the composition loop equals the right fold of the middleware list onto
the terminal handler. -/
lemma composeMW_eq_foldr (mws : List Middleware) (handler : GoHandler) :
    composeMW mws handler = mws.foldr (fun m acc => m acc) handler := by
  induction mws with
  | nil => rfl
  | cons m rest ih =>
    show ((m :: rest).reverse).foldl (fun acc mm => mm acc) handler = _
    rw [List.reverse_cons, List.foldl_append]
    simp only [List.foldl, List.foldr]
    exact congrArg m ih

/-- the extraction loop does not touch keys that do not occur in the
recorder header map. -/
lemma extract_fold_frame (hs : List (String × List String)) :
    ∀ (acc : List (String × String)) (k : String), hasKey hs k = false →
      lookupS (hs.foldl extractStep acc) k = lookupS acc k := by
  induction hs with
  | nil => intro acc k _; rfl
  | cons p rest ih =>
    intro acc k h
    obtain ⟨k0, vs0⟩ := p
    by_cases h0 : k0 = k
    · simp [hasKey, h0] at h
    · simp [hasKey, h0] at h
      rw [List.foldl_cons, ih _ k h]
      show lookupS (extractStep acc (k0, vs0)) k = lookupS acc k
      unfold extractStep
      by_cases hl : vs0.length > 0
      · simp only [hl, if_pos]
        exact lookupS_mapSet_other _ _ _ _ (fun hh => h0 hh.symm)
      · simp [hl]

/-- a key of the recorder header map carrying at least one value is
extracted to the comma-join of its values, whatever the accumulator. -/
lemma extract_fold_mem (hs : List (String × List String)) :
    ∀ (acc : List (String × String)) (k : String) (vs : List String),
      nodupKeys hs = true → (k, vs) ∈ hs → vs ≠ [] →
      lookupS (hs.foldl extractStep acc) k = some (goJoin vs ", ") := by
  induction hs with
  | nil => intro acc k vs _ hmem _; simp at hmem
  | cons p rest ih =>
    intro acc k vs hnd hmem hne
    obtain ⟨k0, vs0⟩ := p
    have hnd2 : (!hasKey rest k0) = true ∧ nodupKeys rest = true := by
      simpa [nodupKeys, Bool.and_eq_true] using hnd
    rcases List.mem_cons.mp hmem with heq | hmem2
    · injection heq with hk hv
      subst hk
      subst hv
      rw [List.foldl_cons]
      have hfree : hasKey rest k = false := by
        simpa using hnd2.1
      rw [extract_fold_frame rest _ k hfree]
      unfold extractStep
      have hl : vs.length > 0 := List.length_pos.mpr hne
      simp only [hl, if_pos]
      exact lookupS_mapSet_self _ _ _
    · rw [List.foldl_cons]
      exact ih _ k vs hnd2.2 hmem2 hne

/-- the final value of the header map after a sequence of assignments is,
per key, the last value written, falling back to the initial map. -/
lemma writeAll_lookup (ws : List (String × String)) :
    ∀ (m : List (String × String)) (k : String),
      lookupS (writeAll ws m) k =
        match lastWrite ws k with
        | some v => some v
        | none => lookupS m k := by
  induction ws with
  | nil => intro m k; rfl
  | cons p rest ih =>
    intro m k
    obtain ⟨k0, v0⟩ := p
    show lookupS (writeAll rest (mapSet m k0 v0)) k = _
    rw [ih]
    cases hlw : lastWrite rest k with
    | some v => simp [lastWrite, hlw]
    | none =>
      by_cases h0 : k0 = k
      · subst h0
        simp [lastWrite, hlw, lookupS_mapSet_self]
      · simp [lastWrite, hlw, h0, lookupS_mapSet_other m k0 v0 k (fun hh => h0 hh.symm)]

/-- attaching a unique-keyed header map to a request sets, per key, exactly
the mapped value, leaving all other request headers unchanged. -/
lemma attachHeaders_headers (m : List (String × String)) :
    ∀ (req : Request) (k : String), nodupKeys m = true →
      (attachHeaders req m).headers k =
        match lookupS m k with
        | some v => some v
        | none => req.headers k := by
  induction m with
  | nil => intro req k _; rfl
  | cons p rest ih =>
    intro req k hnd
    obtain ⟨k0, v0⟩ := p
    have hnd2 : (!hasKey rest k0) = true ∧ nodupKeys rest = true := by
      simpa [nodupKeys, Bool.and_eq_true] using hnd
    show (attachHeaders (req.setHeader k0 v0) rest).headers k = _
    rw [ih _ k hnd2.2]
    by_cases h0 : k0 = k
    · subst h0
      have hrest : lookupS rest k0 = none :=
        lookupS_of_hasKey_false rest k0 (by simpa using hnd2.1)
      simp [hrest, lookupS, Request.setHeader]
    · cases hlw : lookupS rest k with
      | some v => simp [lookupS, h0, hlw]
      | none =>
        have hne : ¬ k = k0 := fun hh => h0 hh.symm
        simp [lookupS, h0, hlw, Request.setHeader, hne]

/-- two assignments to the same key are equivalent to the later one alone. -/
lemma lookupS_mapSet_twice (m : List (String × String)) (k v1 v2 k2 : String) :
    lookupS (mapSet (mapSet m k v1) k v2) k2 = lookupS (mapSet m k v2) k2 := by
  by_cases h : k2 = k
  · subst h
    rw [lookupS_mapSet_self, lookupS_mapSet_self]
  · rw [lookupS_mapSet_other _ _ _ _ h, lookupS_mapSet_other _ _ _ _ h,
      lookupS_mapSet_other _ _ _ _ h]

/-- assignments to distinct keys commute, as observed through lookup. -/
lemma lookupS_mapSet_comm (m : List (String × String)) (k1 v1 k2 v2 k3 : String)
    (h : k1 ≠ k2) :
    lookupS (mapSet (mapSet m k1 v1) k2 v2) k3 =
      lookupS (mapSet (mapSet m k2 v2) k1 v1) k3 := by
  by_cases h2 : k3 = k2
  · subst h2
    rw [lookupS_mapSet_self, lookupS_mapSet_other _ _ _ _ (fun hh => h hh.symm),
      lookupS_mapSet_self]
  · by_cases h1 : k3 = k1
    · subst h1
      rw [lookupS_mapSet_other _ _ _ _ h2, lookupS_mapSet_self, lookupS_mapSet_self]
    · rw [lookupS_mapSet_other _ _ _ _ h2, lookupS_mapSet_other _ _ _ _ h1,
        lookupS_mapSet_other _ _ _ _ h1, lookupS_mapSet_other _ _ _ _ h2]

/-- the shared pipeline returns exactly one meaningful value: a result with
no error, or an error with no result. -/
lemma runCore_exclusive {σ : Type} (rm : RouterM σ) (tp : Transport) (st : σ)
    (method urlPath body : String) (headers : List (String × String))
    (mws : List Middleware) (handler : GoHandler) (urlPattern : String) :
    (runCore rm tp st method urlPath body headers mws handler urlPattern).result.isSome =
      (runCore rm tp st method urlPath body headers mws handler urlPattern).err.isNone := by
  unfold runCore
  split
  · rfl
  · dsimp only
    split
    · rfl
    · rfl

/-- a builder-struct configuration with a nil handler (C3 witness input). -/
def tcNoHandler : TestConfig SimpleState :=
  { Router := none, RouteFunc := none, Path := "/test", Headers := [], Middlewares := []
    URLPattern := "", Method := "", Body := "" }

/-- the pointer-field analogue of `tcNoHandler`. -/
def tcNoHandlerV0 : V0.TestConfig SimpleState :=
  { router := none, RouteFunc := none, Path := "/test", Headers := [], Middlewares := []
    URLPattern := none, Method := none, Body := none }

/-- a fully defaulted builder-struct configuration for path /test. -/
def tcProbe : TestConfig SimpleState :=
  { Router := none, RouteFunc := some echoHandler, Path := "/test", Headers := []
    Middlewares := [], URLPattern := "", Method := "", Body := "" }

/-- the pointer-field analogue of `tcProbe`. -/
def tcProbeV0 : V0.TestConfig SimpleState :=
  { router := none, RouteFunc := some echoHandler, Path := "/test", Headers := []
    Middlewares := [], URLPattern := none, Method := none, Body := none }

/-- a terminal handler that writes status 500 to the sink. -/
def h500 : Handler := fun _ w => w.writeHeader 500

/-- a builder-struct configuration whose handler chain writes status 500. -/
def tc500 : TestConfig SimpleState :=
  { Router := none, RouteFunc := some h500, Path := "/test", Headers := [], Middlewares := []
    URLPattern := "", Method := "", Body := "" }

/-- Claim C1: the composition loop iterates the middleware list from the last
index to the first, replacing the current handler with `middleware[i](current)`,
so it equals the right fold of the list onto the terminal handler, the
first-listed middleware is the outermost wrapper, and on the concrete stacked
example (first middleware sets request header A, second sets B only if A is
present, terminal handler echoes both) the declared order yields both A and B
observed while the reversed order loses B. -/
theorem middleware_onion_order :
    (∀ (mws : List Middleware) (handler : GoHandler),
        composeMW mws handler = mws.foldr (fun m acc => m acc) handler) ∧
    (∀ (m : Middleware) (mws : List Middleware) (handler : GoHandler),
        composeMW (m :: mws) handler = m (composeMW mws handler)) ∧
    lookupS (serveGo (composeMW [mwSetA, mwNeedsA] (some echoHandler)) req0 initResp).headerMap
        "X-Combined" = some ["1:1"] ∧
    lookupS (serveGo (composeMW [mwNeedsA, mwSetA] (some echoHandler)) req0 initResp).headerMap
        "X-Combined" = some ["1:"] := by
  refine ⟨composeMW_eq_foldr, ?_, by decide, by decide⟩
  intro m mws handler
  rw [composeMW_eq_foldr, composeMW_eq_foldr]
  rfl

/-- Claim C2, evaluated at the failing input: with only the path configured,
the functional-options checker keeps the registration pattern at the empty
string and registers there, while both builder-struct Run variants default
the pattern to the configured path; method and body defaults do hold in the
checker. -/
theorem pattern_default_missing_in_checker :
    (applyOpts [WithURLPath "/test"] initialConfig).urlPath = "/test" ∧
    (applyOpts [WithURLPath "/test"] initialConfig).method = "GET" ∧
    (applyOpts [WithURLPath "/test"] initialConfig).body = "" ∧
    (applyOpts [WithURLPath "/test"] initialConfig).urlPattern = "" ∧
    (NewChecker simpleRM stdTransport none (some echoHandler) [WithURLPath "/test"]).trace =
      [REvent.handle "", REvent.serve] ∧
    (TestConfig.Run simpleRM stdTransport tcProbe).trace =
      [REvent.handle "/test", REvent.serve] ∧
    (V0.TestConfig.Run simpleRM stdTransport tcProbeV0).trace =
      [REvent.handle "/test", REvent.serve] :=
  ⟨rfl, rfl, rfl, rfl, by decide, by decide, by decide⟩

/-- Claim C3, counterexample: the functional-options checker invoked with a
nil terminal handler and a nonempty path returns no error and still performs
registration and dispatch, refuting the claim for that entry point. -/
theorem nil_handler_not_validated_cex :
    (NewChecker simpleRM stdTransport none (none : GoHandler) [WithURLPath "/x"]).err = none ∧
    (NewChecker simpleRM stdTransport none (none : GoHandler) [WithURLPath "/x"]).trace ≠ [] :=
  ⟨by decide, by decide⟩

/-- Claim C3, amended: both builder-struct Run variants return an error with
no registration, no dispatch and an unchanged router when the handler is nil
or the path is empty; the functional-options checker does so when the
configured path is empty (its handler is a call argument and is not checked
against nil). -/
theorem validation_failfast :
    (∀ (σ : Type) (rm : RouterM σ) (tp : Transport) (tc : TestConfig σ),
        tc.RouteFunc = none ∨ tc.Path = "" →
        (TestConfig.Run rm tp tc).err.isSome = true ∧
        (TestConfig.Run rm tp tc).result = none ∧
        (TestConfig.Run rm tp tc).trace = [] ∧
        (TestConfig.Run rm tp tc).router = tc.Router) ∧
    (∀ (σ : Type) (rm : RouterM σ) (tp : Transport) (tc : V0.TestConfig σ),
        tc.RouteFunc = none ∨ tc.Path = "" →
        (V0.TestConfig.Run rm tp tc).err.isSome = true ∧
        (V0.TestConfig.Run rm tp tc).result = none ∧
        (V0.TestConfig.Run rm tp tc).trace = [] ∧
        (V0.TestConfig.Run rm tp tc).router = tc.router) ∧
    (∀ (σ : Type) (rm : RouterM σ) (tp : Transport) (st : σ) (handler : GoHandler)
        (options : List TestOption),
        (applyOpts options initialConfig).urlPath = "" →
        (NewChecker rm tp st handler options).err.isSome = true ∧
        (NewChecker rm tp st handler options).result = none ∧
        (NewChecker rm tp st handler options).trace = [] ∧
        (NewChecker rm tp st handler options).router = st) := by
  refine ⟨?_, ?_, ?_⟩
  · intro σ rm tp tc h
    rcases h with h | h
    · simp [TestConfig.Run, h]
    · cases hrf : tc.RouteFunc with
      | none => simp [TestConfig.Run, hrf]
      | some rf => simp [TestConfig.Run, hrf, h]
  · intro σ rm tp tc h
    rcases h with h | h
    · simp [V0.TestConfig.Run, h]
    · cases hrf : tc.RouteFunc with
      | none => simp [V0.TestConfig.Run, hrf]
      | some rf => simp [V0.TestConfig.Run, hrf, h]
  · intro σ rm tp st handler options h
    simp [NewChecker, h]

/-- witness for the amended C3 theorem at concrete inputs: a nil-handler
builder configuration in each variant, and an empty-path option list for
the checker. -/
theorem validation_failfast_witness :
    (TestConfig.Run simpleRM stdTransport tcNoHandler).err.isSome = true ∧
    (TestConfig.Run simpleRM stdTransport tcNoHandler).trace = [] ∧
    (V0.TestConfig.Run simpleRM stdTransport tcNoHandlerV0).err.isSome = true ∧
    (V0.TestConfig.Run simpleRM stdTransport tcNoHandlerV0).trace = [] ∧
    (NewChecker simpleRM stdTransport none (some echoHandler) []).err.isSome = true ∧
    (NewChecker simpleRM stdTransport none (some echoHandler) []).trace = [] := by
  have h1 := validation_failfast.1 SimpleState simpleRM stdTransport tcNoHandler (Or.inl rfl)
  have h2 := validation_failfast.2.1 SimpleState simpleRM stdTransport tcNoHandlerV0 (Or.inl rfl)
  have h3 := validation_failfast.2.2 SimpleState simpleRM stdTransport none
    (some echoHandler) [] rfl
  exact ⟨h1.1, h1.2.2.1, h2.1, h2.2.2.1, h3.1, h3.2.2.1⟩

/-- Claim C4: with a valid configuration and the happy-path transport, every
entry point returns a nil error together with a result whose status code is
exactly the code left in the response sink by the dispatched handler chain;
no error is synthesized from the status. -/
theorem status_passthrough :
    (∀ (σ : Type) (rm : RouterM σ) (tc : TestConfig σ) (rf : Handler),
        tc.RouteFunc = some rf → tc.Path ≠ "" →
        (TestConfig.Run rm stdTransport tc).err = none ∧
        (TestConfig.Run rm stdTransport tc).result.map Result.StatusCode =
          some (rm.serveHTTP
              (rm.handle tc.Router tc.effectivePattern (composeMW tc.Middlewares (some rf)))
              (attachHeaders (stdReq tc.effectiveMethod tc.Path tc.effectiveBody) tc.Headers)
              initResp).Code) ∧
    (∀ (σ : Type) (rm : RouterM σ) (st : σ) (handler : GoHandler)
        (options : List TestOption),
        (applyOpts options initialConfig).urlPath ≠ "" →
        (NewChecker rm stdTransport st handler options).err = none ∧
        (NewChecker rm stdTransport st handler options).result.map Result.StatusCode =
          some (rm.serveHTTP
              (rm.handle st (applyOpts options initialConfig).urlPattern
                (composeMW (applyOpts options initialConfig).middlewares handler))
              (attachHeaders
                (stdReq (applyOpts options initialConfig).method
                  (applyOpts options initialConfig).urlPath
                  (applyOpts options initialConfig).body)
                (applyOpts options initialConfig).headers)
              initResp).Code) := by
  constructor
  · intro σ rm tc rf hrf hp
    constructor
    · simp [TestConfig.Run, hrf, hp, runCore, stdTransport]
    · simp [TestConfig.Run, hrf, hp, runCore, stdTransport]
  · intro σ rm st handler options hp
    constructor
    · simp [NewChecker, hp, runCore, stdTransport]
    · simp [NewChecker, hp, runCore, stdTransport]

/-- witness for C4 at concrete inputs: a handler writing 500 yields status
code 500 and no error, through both entry points. -/
theorem status_passthrough_witness :
    (TestConfig.Run simpleRM stdTransport tc500).err = none ∧
    (TestConfig.Run simpleRM stdTransport tc500).result.map Result.StatusCode = some 500 ∧
    (NewChecker simpleRM stdTransport none (some h500) [WithURLPath "/test"]).err = none ∧
    (NewChecker simpleRM stdTransport none (some h500)
        [WithURLPath "/test"]).result.map Result.StatusCode = some 500 := by
  have h1 := status_passthrough.1 SimpleState simpleRM tc500 h500 rfl (by decide)
  have h2 := status_passthrough.2 SimpleState simpleRM none (some h500)
    [WithURLPath "/test"] (by decide)
  exact ⟨h1.1, h1.2.trans (by decide), h2.1, h2.2.trans (by decide)⟩

/-- Claim C5: every response-header key carrying at least one value appears
in the extracted result headers with its values joined by the separator
literally written in the source, in their existing order; a single-valued
header passes through as its value unchanged. -/
theorem response_header_join :
    (∀ (hs : List (String × List String)) (k : String) (vs : List String),
        nodupKeys hs = true → (k, vs) ∈ hs → vs ≠ [] →
        lookupS (extractHeaders hs) k = some (goJoin vs ", ")) ∧
    (∀ (hs : List (String × List String)) (k : String) (v : String),
        nodupKeys hs = true → (k, [v]) ∈ hs →
        lookupS (extractHeaders hs) k = some v) := by
  constructor
  · intro hs k vs hnd hmem hne
    exact extract_fold_mem hs [] k vs hnd hmem hne
  · intro hs k v hnd hmem
    have h := extract_fold_mem hs [] k [v] hnd hmem (by simp)
    simpa [goJoin] using h

/-- witness for C5 at a concrete recorder header map with a multi-valued
and a single-valued key. -/
theorem response_header_join_witness :
    lookupS (extractHeaders [("Content-Type", ["application/json"]), ("X-Multi", ["a", "b"])])
        "X-Multi" = some "a, b" ∧
    lookupS (extractHeaders [("Content-Type", ["application/json"]), ("X-Multi", ["a", "b"])])
        "Content-Type" = some "application/json" := by
  constructor
  · have h := response_header_join.1
      [("Content-Type", ["application/json"]), ("X-Multi", ["a", "b"])]
      "X-Multi" ["a", "b"] (by decide) (by decide) (by decide)
    exact h.trans (by decide)
  · exact response_header_join.2
      [("Content-Type", ["application/json"]), ("X-Multi", ["a", "b"])]
      "Content-Type" "application/json" (by decide) (by decide)

/-- Claim C6: a sequence of header assignments leaves, per key, exactly the
last value written (falling back to the prior map); a duplicate key keeps
only the later value; assignments to distinct keys commute; attaching a
header map to the request depends only on per-key lookup; and the same
last-write-wins behaviour holds through the `WithHeaders`/`Header` API. -/
theorem header_last_write_wins :
    (∀ (ws : List (String × String)) (m : List (String × String)) (k : String),
        lookupS (writeAll ws m) k =
          match lastWrite ws k with
          | some v => some v
          | none => lookupS m k) ∧
    (∀ (m : List (String × String)) (k v1 v2 k2 : String),
        lookupS (writeAll [(k, v1), (k, v2)] m) k2 = lookupS (writeAll [(k, v2)] m) k2) ∧
    (∀ (m : List (String × String)) (k1 v1 k2 v2 k3 : String), k1 ≠ k2 →
        lookupS (writeAll [(k1, v1), (k2, v2)] m) k3 =
          lookupS (writeAll [(k2, v2), (k1, v1)] m) k3) ∧
    (∀ (req : Request) (m : List (String × String)) (k : String), nodupKeys m = true →
        (attachHeaders req m).headers k =
          match lookupS m k with
          | some v => some v
          | none => req.headers k) ∧
    (∀ (cfg : testConfig) (k v1 v2 k2 : String),
        lookupS ((WithHeaders [Header k v1, Header k v2] cfg).headers) k2 =
          lookupS ((WithHeaders [Header k v2] cfg).headers) k2) := by
  refine ⟨fun ws m k => writeAll_lookup ws m k, ?_, ?_, ?_, ?_⟩
  · intro m k v1 v2 k2
    exact lookupS_mapSet_twice m k v1 v2 k2
  · intro m k1 v1 k2 v2 k3 h
    exact lookupS_mapSet_comm m k1 v1 k2 v2 k3 h
  · intro req m k hnd
    exact attachHeaders_headers m req k hnd
  · intro cfg k v1 v2 k2
    exact lookupS_mapSet_twice cfg.headers k v1 v2 k2

/-- witness for C6 at concrete inputs: distinct-key commutation and
unique-keyed attachment, with every hypothesis discharged concretely. -/
theorem header_last_write_wins_witness :
    lookupS (writeAll [("A", "x"), ("B", "y")] []) "A" =
      lookupS (writeAll [("B", "y"), ("A", "x")] []) "A" ∧
    (attachHeaders req0 [("A", "1")]).headers "A" = some "1" := by
  constructor
  · exact header_last_write_wins.2.2.1 [] "A" "x" "B" "y" "A" (by decide)
  · have h := header_last_write_wins.2.2.2.1 req0 [("A", "1")] "A" (by decide)
    exact h.trans (by decide)

/-- Claim C7: dispatching through an adapter holding an unsupported concrete
router type returns normally as the `http.Error` response, does not depend
on the request (no further processing), and on a fresh sink leaves internal
server error 500 as the recorded status; no checker-level error value exists
on this path. -/
theorem adapter_dispatch_unsupported_500 :
    (∀ (other : String) (w : Resp) (r : Request),
        RouterAdapter.ServeHTTP { Mux := MuxRef.unsupported other } w r =
          httpError w "Unsupported router type" 500) ∧
    (∀ (other : String) (w : Resp) (r r2 : Request),
        RouterAdapter.ServeHTTP { Mux := MuxRef.unsupported other } w r =
          RouterAdapter.ServeHTTP { Mux := MuxRef.unsupported other } w r2) ∧
    (∀ (other : String) (w : Resp) (r : Request), w.wroteHeader = false →
        (RouterAdapter.ServeHTTP { Mux := MuxRef.unsupported other } w r).Code = 500) := by
  refine ⟨fun other w r => rfl, fun other w r r2 => rfl, ?_⟩
  intro other w r h
  show (httpError w "Unsupported router type" 500).Code = 500
  unfold httpError Resp.write Resp.writeHeader Resp.setHeader
  simp [h]

/-- witness for C7 on a fresh response recorder. -/
theorem adapter_dispatch_unsupported_500_witness :
    (RouterAdapter.ServeHTTP { Mux := MuxRef.unsupported "chi.Mux" } initResp req0).Code
      = 500 :=
  adapter_dispatch_unsupported_500.2.2 "chi.Mux" initResp req0 rfl

/-- Claim C8: registration through an adapter holding an unsupported concrete
router type is a silent no-op, returning the adapter (and so the held
reference) unchanged. -/
theorem adapter_register_unsupported_noop :
    ∀ (other : String) (pattern : String) (handler : GoHandler),
      RouterAdapter.Handle { Mux := MuxRef.unsupported other } pattern handler =
        { Mux := MuxRef.unsupported other } :=
  fun _ _ _ => rfl

/-- Claim C9: the text-conversion accessor of `Body` returns the empty string
on an empty body and the body byte sequence as text otherwise, and is total. -/
theorem body_string_accessor :
    Body.string { bytes := "" } = "" ∧ ∀ b : Body, Body.string b = b.bytes := by
  constructor
  · rfl
  · intro b
    obtain ⟨s⟩ := b
    show (if s.length = 0 then "" else s) = s
    by_cases h : s.length = 0
    · have hs : s = "" := by
        cases s with
        | mk data =>
          cases data with
          | nil => rfl
          | cons c cs => simp [String.length] at h
      rw [hs]
      simp
    · simp [h]

/-- Claim C10: every entry point returns exactly one meaningful value —
the result is present precisely when the error is absent. -/
theorem result_err_exclusive :
    (∀ (σ : Type) (rm : RouterM σ) (tp : Transport) (tc : TestConfig σ),
        (TestConfig.Run rm tp tc).result.isSome = (TestConfig.Run rm tp tc).err.isNone) ∧
    (∀ (σ : Type) (rm : RouterM σ) (tp : Transport) (tc : V0.TestConfig σ),
        (V0.TestConfig.Run rm tp tc).result.isSome =
          (V0.TestConfig.Run rm tp tc).err.isNone) ∧
    (∀ (σ : Type) (rm : RouterM σ) (tp : Transport) (st : σ) (handler : GoHandler)
        (options : List TestOption),
        (NewChecker rm tp st handler options).result.isSome =
          (NewChecker rm tp st handler options).err.isNone) := by
  refine ⟨?_, ?_, ?_⟩
  · intro σ rm tp tc
    unfold TestConfig.Run
    cases tc.RouteFunc with
    | none => rfl
    | some rf =>
      dsimp only
      by_cases hp : tc.Path = ""
      · simp [hp]
      · rw [if_neg hp]
        exact runCore_exclusive _ _ _ _ _ _ _ _ _ _
  · intro σ rm tp tc
    unfold V0.TestConfig.Run
    cases tc.RouteFunc with
    | none => rfl
    | some rf =>
      dsimp only
      by_cases hp : tc.Path = ""
      · simp [hp]
      · rw [if_neg hp]
        exact runCore_exclusive _ _ _ _ _ _ _ _ _ _
  · intro σ rm tp st handler options
    unfold NewChecker
    by_cases hp : (applyOpts options initialConfig).urlPath = ""
    · simp [hp]
    · simp only [hp, if_false]
      exact runCore_exclusive _ _ _ _ _ _ _ _ _ _

end Checkpoint
